import Mathlib

/-!
Verification development for the repository file `providers_script.py`, a thin
harness around the Qiskit SDK.  The script is embedded shallowly:

* Python `dict`s become association lists (`Dict`) with insertion-order
  semantics: `dlookup` is Python `d[k]` (first match), `dinsert` is
  `d[k] = v` (overwrite in place if the key exists, append otherwise),
  `Dict.keys` is `d.keys()` (iteration order).
* SDK objects whose internals the script never inspects (dates, durations,
  coupling maps, error floats, ...) are an opaque type parameter `V`.
* A backend is the record of the attributes the script reads; its `target`
  is a dict from gate names to dicts from qubit tuples to an optional
  `InstructionProperties` record (`none` models Python `None` entries).
* Code paths where an SDK access can raise are additionally embedded in the
  `Except` monad: a raised exception is `Except.error`, and Python's
  implicit propagation is the monad's bind.
-/

namespace ProvidersScript

/-- Python dictionaries, modelled as insertion-ordered association lists. -/
abbrev Dict (K A : Type) := List (K × A)

/-- `d[k]` read access: the value at the first occurrence of `k`. -/
def dlookup {K A : Type} [DecidableEq K] : Dict K A → K → Option A
  | [], _ => none
  | (k, v) :: rest, key => if k = key then some v else dlookup rest key

/-- `d[k] = v` write access: overwrite in place if `k` is present, else append
(Python dicts keep the original insertion position on overwrite). -/
def dinsert {K A : Type} [DecidableEq K] : Dict K A → K → A → Dict K A
  | [], key, v => [(key, v)]
  | (k, w) :: rest, key, v =>
      if k = key then (key, v) :: rest else (k, w) :: dinsert rest key v

/-- `d.keys()` in iteration order. -/
def Dict.keys {K A : Type} (d : Dict K A) : List K := d.map Prod.fst

/-- A tuple of qubit indices (the keys of a target's inner dict). -/
abbrev Qargs := List Nat

/-- The `.duration` and `.error` attributes of a non-`None` target entry.
Both are opaque SDK values (floats or Python `None`). -/
structure InstructionProperties (V : Type) where
  duration : V
  error : V
deriving DecidableEq

/-- `backend.target`: gate name -> qubit tuple -> optional properties entry.
`none` models a Python `None` entry. -/
abbrev Target (V : Type) := Dict String (Dict Qargs (Option (InstructionProperties V)))

/-- The attributes of a backend object that `providers_script.py` reads. -/
structure Backend (V : Type) where
  name : String
  backend_version : V
  online_date : V
  dt : V
  dtm : V
  max_circuits : V
  num_qubits : Nat
  coupling_map : V
  operation_names : List String
  instruction_durations : V
  instruction_schedule_map : V
  target : Target V
deriving DecidableEq

/-- A provider, reduced to what the script uses: its `backends()` list. -/
structure Provider (V : Type) where
  backends : List (Backend V)
deriving DecidableEq

/-- `search_backend(provider, searched_backend_name)` from
`providers_script.py` lines 17-40: start from `None`, scan every backend of
the provider, and overwrite the candidate on every name match. -/
def search_backend {V : Type} (provider : Provider V)
    (searched_backend_name : String) : Option (Backend V) :=
  List.foldl
    (fun searched_backend backend =>
      if backend.name = searched_backend_name then some backend
      else searched_backend)
    none provider.backends

/-- The dynamically typed values stored in the `backend_info` dictionary built
by `get_backend_info` (a Python dict maps string keys to values of mixed
types). -/
inductive InfoVal (V : Type) where
  | str : String → InfoVal V
  | nat : Nat → InfoVal V
  | strList : List String → InfoVal V
  | sdk : V → InfoVal V
  | target : Target V → InfoVal V
deriving DecidableEq

/-- `get_backend_info(backend)` from `providers_script.py` lines 43-73: the
dict literal with twelve keys, each value an attribute read of `backend`, in
source order.  The Python function only reads attributes, so the embedding is
a pure function of the backend. -/
def get_backend_info {V : Type} (backend : Backend V) : Dict String (InfoVal V) :=
  [ ("name", InfoVal.str backend.name),
    ("version", InfoVal.sdk backend.backend_version),
    ("online_date", InfoVal.sdk backend.online_date),
    ("syst_time_resolution_input_signals", InfoVal.sdk backend.dt),
    ("syst_time_resolution_output_signals", InfoVal.sdk backend.dtm),
    ("max_circuits_per_job", InfoVal.sdk backend.max_circuits),
    ("num_qubits", InfoVal.nat backend.num_qubits),
    ("coupling_map", InfoVal.sdk backend.coupling_map),
    ("operation_names", InfoVal.strList backend.operation_names),
    ("instruction_durations", InfoVal.sdk backend.instruction_durations),
    ("instruction_schedule_map", InfoVal.sdk backend.instruction_schedule_map),
    ("target", InfoVal.target backend.target) ]

/-- The exceptions the embedded script-level code can raise: a missing dict
key (`KeyError`) or a method call on a value that lacks it
(`AttributeError`). -/
inductive PyErr where
  | keyError : String → PyErr
  | attributeError : String → PyErr
deriving DecidableEq

/-- `backend_info[key]`: Python raises `KeyError` when the key is absent. -/
def getItem {V : Type} (backend_info : Dict String (InfoVal V)) (key : String) :
    Except PyErr (InfoVal V) :=
  match dlookup backend_info key with
  | some v => Except.ok v
  | none => Except.error (PyErr.keyError key)

/-- `str(x)` for a value printed by `print_backend_info`; rendering of opaque
SDK values is a parameter `fmtV`, of qubit tuples `fmtQ` (Python delegates
both to the SDK's `__str__`). -/
def pyStr {V : Type} (fmtV : V → String) : InfoVal V → String
  | InfoVal.str s => s
  | InfoVal.nat n => toString n
  | InfoVal.strList l => toString l
  | InfoVal.sdk v => fmtV v
  | InfoVal.target _ => "Target"

/-- `backend_info['coupling_map'].draw()`: succeeds on an SDK object and
raises `AttributeError` otherwise; its return value is discarded by the
script, so it contributes no output line. -/
def drawCouplingMap {V : Type} : InfoVal V → Except PyErr Unit
  | InfoVal.sdk _ => Except.ok ()
  | _ => Except.error (PyErr.attributeError "draw")

/-- `backend_info['target'].keys()` requires the value to be a target dict. -/
def asTarget {V : Type} : InfoVal V → Except PyErr (Target V)
  | InfoVal.target t => Except.ok t
  | _ => Except.error (PyErr.attributeError "keys")

/-- The target section of `print_backend_info` (lines 100-107): one line per
gate, then one line per qubit tuple.  The source guards the entry twice with
`!= None and != None` (the same test written twice); a non-`None` entry prints
its `.duration` and `.error`, a `None` entry prints the literal
`duration=None, error=None` without any attribute access. -/
def target_lines {V : Type} (fmtV : V → String) (fmtQ : Qargs → String)
    (t : Target V) : List String :=
  t.flatMap (fun p =>
    ("\t " ++ p.1) ::
    p.2.map (fun q =>
      match q.2 with
      | some props =>
          "\t\tQubit(s) " ++ fmtQ q.1 ++ ": duration=" ++ fmtV props.duration
            ++ ", error=" ++ fmtV props.error
      | none => "\t\tQubit(s) " ++ fmtQ q.1 ++ ": duration=None, error=None"))

/-- `print_backend_info(backend_info)` from `providers_script.py` lines
75-110, embedded as the list of lines it prints: each `backend_info[...]`
access is a `getItem` in source print order, a missing key raises, and the
result on success is the full transcript. -/
def print_backend_info {V : Type} (fmtV : V → String) (fmtQ : Qargs → String)
    (backend_info : Dict String (InfoVal V)) : Except PyErr (List String) := do
  let name ← getItem backend_info "name"
  let version ← getItem backend_info "version"
  let online_date ← getItem backend_info "online_date"
  let max_circuits ← getItem backend_info "max_circuits_per_job"
  let num_qubits ← getItem backend_info "num_qubits"
  let dt ← getItem backend_info "syst_time_resolution_input_signals"
  let dtm ← getItem backend_info "syst_time_resolution_output_signals"
  let coupling_map ← getItem backend_info "coupling_map"
  let _ ← drawCouplingMap coupling_map
  let operation_names ← getItem backend_info "operation_names"
  let tgt ← getItem backend_info "target"
  let t ← asTarget tgt
  return [ "Name:  " ++ pyStr fmtV name,
           "Version:  " ++ pyStr fmtV version,
           "Online date:  " ++ pyStr fmtV online_date,
           "Max circuits per job:  " ++ pyStr fmtV max_circuits,
           "Number of qubits:  " ++ pyStr fmtV num_qubits,
           "System time resolution:",
           "\tInput signals:  " ++ pyStr fmtV dt,
           "\tOutput signals:  " ++ pyStr fmtV dtm,
           "Coupling map:",
           "Operations names:  " ++ pyStr fmtV operation_names,
           "Target:" ]
         ++ target_lines fmtV fmtQ t

/-- The body of the inner loop of `get_gate_errors` (lines 135-141): for one
qubit tuple `q.1` of the gate, store the entry's `.error` when the entry is
not `None` (the source tests `!= None and != None`, the same test twice) and
the literal `None` otherwise. -/
def gate_errors_inner_step {V : Type} (inner : Dict Qargs (Option V))
    (q : Qargs × Option (InstructionProperties V)) : Dict Qargs (Option V) :=
  match q.2 with
  | some props => dinsert inner q.1 (some props.error)
  | none => dinsert inner q.1 none

/-- The body of the outer loop of `get_gate_errors` (lines 132-141): bind
`gate_errors[gate]` to the inner dict the inner loop builds from an empty
dict.  Python creates the fresh inner dict first and mutates it in place
through `gate_errors[gate]`; since it is fresh each iteration, this equals
building it and then binding it. -/
def gate_errors_outer_step {V : Type} (gate_errors : Dict String (Dict Qargs (Option V)))
    (p : String × Dict Qargs (Option (InstructionProperties V))) :
    Dict String (Dict Qargs (Option V)) :=
  dinsert gate_errors p.1 (List.foldl gate_errors_inner_step [] p.2)

/-- `get_gate_errors(backend)` from `providers_script.py` lines 113-143:
start from an empty dict and run the two nested loops over
`backend.target`. -/
def get_gate_errors {V : Type} (backend : Backend V) :
    Dict String (Dict Qargs (Option V)) :=
  List.foldl gate_errors_outer_step [] backend.target

/-- The SDK call `NoiseModel.from_backend(backend)`, opaque to the script:
modelled as a constructor recording the backend it was built from. -/
structure NoiseModel (V : Type) where
  from_backend_source : Backend V
deriving DecidableEq

/-- `NoiseModel.from_backend(backend)`. -/
def noiseModel_from_backend {V : Type} (backend : Backend V) : NoiseModel V :=
  ⟨backend⟩

/-- The `options.simulator` dict set by `create_options` when a backend is
given (keys `noise_model`, `basis_gates`, `coupling_map`; `N` is the type of
the noise-model value). -/
structure SimulatorOptions (N V : Type) where
  noise_model : N
  basis_gates : List String
  coupling_map : V
deriving DecidableEq

/-- The fields of the runtime `Options` object the script touches:
`execution.shots`, `optimization_level`, `resilience_level` and `simulator`
(unset = `none`). -/
structure Options (N V : Type) where
  execution_shots : Nat
  optimization_level : Nat
  resilience_level : Nat
  simulator : Option (SimulatorOptions N V)
deriving DecidableEq

/-- A fresh `Options()` object.  The SDK defaults for the numeric fields
(4000 shots, optimization level 3, resilience level 1 in the SDK release the
script targets) are all overwritten by `create_options` before use; the
`simulator` section starts unset. -/
def Options.new {N V : Type} : Options N V :=
  { execution_shots := 4000, optimization_level := 3, resilience_level := 1,
    simulator := none }

/-- `create_options(nb_shots, backend=None)` from `providers_script.py` lines
146-176: set shots, optimization level 0, resilience level 0, and when a
backend is given set `options.simulator` to the dict with the noise model
built from that backend, its operation names as basis gates and its coupling
map. -/
def create_options {V : Type} (nb_shots : Nat)
    (backend : Option (Backend V)) : Options (NoiseModel V) V :=
  let options : Options (NoiseModel V) V := Options.new
  let options := { options with execution_shots := nb_shots }
  let options := { options with optimization_level := 0 }
  let options := { options with resilience_level := 0 }
  match backend with
  | some b =>
      { options with
        simulator := some
          { noise_model := noiseModel_from_backend b,
            basis_gates := b.operation_names,
            coupling_map := b.coupling_map } }
  | none => options

/-- The circuit instructions the script appends (`qc.h`, `qc.x`, `qc.cx`,
and the barrier and measurements appended by `qc.measure_all()`). -/
inductive Instr where
  | h : Nat → Instr
  | x : Nat → Instr
  | cx : Nat → Nat → Instr
  | barrier : List Nat → Instr
  | measure : Nat → Nat → Instr
deriving DecidableEq

/-- A quantum circuit: qubit count, classical-bit count, and the instruction
list in append order. -/
structure QuantumCircuit where
  num_qubits : Nat
  num_clbits : Nat
  data : List Instr
deriving DecidableEq

/-- `QuantumCircuit(nq, nc)`. -/
def QuantumCircuit.init (nq nc : Nat) : QuantumCircuit := ⟨nq, nc, []⟩

/-- `qc.h(q)`. -/
def QuantumCircuit.h (qc : QuantumCircuit) (q : Nat) : QuantumCircuit :=
  { qc with data := qc.data ++ [Instr.h q] }

/-- `qc.x(q)`. -/
def QuantumCircuit.x (qc : QuantumCircuit) (q : Nat) : QuantumCircuit :=
  { qc with data := qc.data ++ [Instr.x q] }

/-- `qc.cx(c, t)`. -/
def QuantumCircuit.cx (qc : QuantumCircuit) (c t : Nat) : QuantumCircuit :=
  { qc with data := qc.data ++ [Instr.cx c t] }

/-- `qc.measure_all()`: append a barrier over all qubits, add a fresh
classical register of `num_qubits` bits, and measure qubit `i` into fresh
clbit `num_clbits + i`. -/
def QuantumCircuit.measure_all (qc : QuantumCircuit) : QuantumCircuit :=
  { qc with
    num_clbits := qc.num_clbits + qc.num_qubits,
    data := qc.data ++ [Instr.barrier (List.range qc.num_qubits)]
      ++ (List.range qc.num_qubits).map
           (fun i => Instr.measure i (qc.num_clbits + i)) }

/-- The fixed circuit built by the script (lines 221-226):
`QuantumCircuit(2,2)` then `h(0)`, `x(1)`, `cx(0,1)`, `measure_all()`. -/
def qc : QuantumCircuit :=
  ((((QuantumCircuit.init 2 2).h 0).x 1).cx 0 1).measure_all

/-- One `sampler.run(transpile(qc, simulator))` inside a
`Session(service, backend)` block, as the script records it: the session
backend's name, the options handed to the sampler, the submitted circuit and
the name of the backend it is transpiled for. -/
structure Submission (V : Type) where
  session_backend : String
  options : Options (NoiseModel V) V
  circuit : QuantumCircuit
  transpile_backend : String
deriving DecidableEq

/-- The job submissions of the `__main__` block (lines 240-269) as a trace,
as a function of the fake provider: `fake_Melbourne` is the result of
`search_backend(provider, "fake_melbourne")`, `nb_shots = 1024`, the ideal
options come from `create_options(nb_shots)` and the noisy options from
`create_options(nb_shots, fake_Melbourne)`; both submissions run the same
circuit `qc`, transpiled for and sessioned on `ibmq_qasm_simulator`. -/
def main_submissions {V : Type} (provider : Provider V) : List (Submission V) :=
  let fake_Melbourne := search_backend provider "fake_melbourne"
  let nb_shots := 1024
  let ideal_options := create_options nb_shots none
  let noisy_options := create_options nb_shots fake_Melbourne
  [ ⟨"ibmq_qasm_simulator", ideal_options, qc, "ibmq_qasm_simulator"⟩,
    ⟨"ibmq_qasm_simulator", noisy_options, qc, "ibmq_qasm_simulator"⟩ ]

/-- The names of the function definitions in `providers_script.py`, in
source order (lines 17, 43, 75, 113, 146). -/
def helper_function_defs : List String :=
  [ "search_backend", "get_backend_info", "print_backend_info",
    "get_gate_errors", "create_options" ]

/-- The helper functions actually invoked by the `__main__` block, in first
call order (lines 198, 205, 206, 241): `get_gate_errors` is defined but never
called. -/
def helpers_invoked_in_main : List String :=
  [ "search_backend", "get_backend_info", "print_backend_info",
    "create_options" ]

/-- A backend whose attribute reads (and whose `NoiseModel.from_backend`
call) may raise: each access outcome in the `Except` monad.  The
`noise_model` field is the outcome of the SDK call
`NoiseModel.from_backend(self)`. -/
structure FBackend (E V : Type) where
  name : Except E String
  backend_version : Except E V
  online_date : Except E V
  dt : Except E V
  dtm : Except E V
  max_circuits : Except E V
  num_qubits : Except E Nat
  coupling_map : Except E V
  operation_names : Except E (List String)
  instruction_durations : Except E V
  instruction_schedule_map : Except E V
  target : Except E (Target V)
  noise_model : Except E V

/-- A provider whose `backends()` call may raise, and whose backends have
fallible attribute reads: the SDK call's outcome in the `Except` monad. -/
structure FProvider (E V : Type) where
  backends : Except E (List (FBackend E V))

/-- `search_backend` with a fallible `provider.backends()` call and fallible
per-backend `backend.name` reads (line 37): the source has no `try`/`except`,
so a raise in `backends()` or in any `backend.name` read the loop reaches
propagates unchanged. -/
def search_backendE {E V : Type} (provider : FProvider E V)
    (searched_backend_name : String) : Except E (Option (FBackend E V)) := do
  let bs ← provider.backends
  bs.foldlM
    (fun searched_backend backend => do
      let nm ← backend.name
      if nm = searched_backend_name then return some backend
      else return searched_backend)
    none

/-- `get_backend_info` with fallible attribute reads, evaluated in the
source's dict-literal order; no read is guarded, so the first raise
propagates unchanged. -/
def get_backend_infoE {E V : Type} (backend : FBackend E V) :
    Except E (Dict String (InfoVal V)) := do
  let name ← backend.name
  let version ← backend.backend_version
  let online_date ← backend.online_date
  let dt ← backend.dt
  let dtm ← backend.dtm
  let max_circuits ← backend.max_circuits
  let num_qubits ← backend.num_qubits
  let coupling_map ← backend.coupling_map
  let operation_names ← backend.operation_names
  let instruction_durations ← backend.instruction_durations
  let instruction_schedule_map ← backend.instruction_schedule_map
  let tgt ← backend.target
  return [ ("name", InfoVal.str name),
    ("version", InfoVal.sdk version),
    ("online_date", InfoVal.sdk online_date),
    ("syst_time_resolution_input_signals", InfoVal.sdk dt),
    ("syst_time_resolution_output_signals", InfoVal.sdk dtm),
    ("max_circuits_per_job", InfoVal.sdk max_circuits),
    ("num_qubits", InfoVal.nat num_qubits),
    ("coupling_map", InfoVal.sdk coupling_map),
    ("operation_names", InfoVal.strList operation_names),
    ("instruction_durations", InfoVal.sdk instruction_durations),
    ("instruction_schedule_map", InfoVal.sdk instruction_schedule_map),
    ("target", InfoVal.target tgt) ]

/-- `get_gate_errors` with a fallible `backend.target` read: an unguarded
raise there propagates unchanged. -/
def get_gate_errorsE {E V : Type} (backend : FBackend E V) :
    Except E (Dict String (Dict Qargs (Option V))) := do
  let t ← backend.target
  return List.foldl gate_errors_outer_step [] t

/-- `create_options` with a fallible backend: the `options.simulator` dict
literal evaluates `NoiseModel.from_backend(backend)`,
`backend.operation_names` and `backend.coupling_map` in order, none of them
guarded, so the first raise propagates unchanged. -/
def create_optionsE {E V : Type} (nb_shots : Nat)
    (backend : Option (FBackend E V)) : Except E (Options V V) := do
  let options : Options V V := Options.new
  let options := { options with execution_shots := nb_shots }
  let options := { options with optimization_level := 0 }
  let options := { options with resilience_level := 0 }
  match backend with
  | some b => do
      let nm ← b.noise_model
      let basis_gates ← b.operation_names
      let coupling_map ← b.coupling_map
      return { options with
        simulator := some
          { noise_model := nm, basis_gates := basis_gates,
            coupling_map := coupling_map } }
  | none => return options

/-- Join of two optional values preferring the first: the value of
`search_backend`'s overwrite loop read from the right end of the list. -/
def optOr {α : Type} : Option α → Option α → Option α
  | some a, _ => some a
  | none, b => b

/-- A small concrete target used to evaluate the theorems: two gates, one
entry with properties, one `None` entry. -/
def wTarget : Target Nat :=
  [ ("cx", [([0, 1], some ⟨3, 5⟩), ([1, 0], none)]),
    ("x", [([0], some ⟨2, 4⟩)]) ]

/-- A concrete backend (over `V := Nat`) used to evaluate the theorems. -/
def wBackend : Backend Nat :=
  { name := "fake_manila", backend_version := 1, online_date := 2, dt := 3,
    dtm := 4, max_circuits := 5, num_qubits := 2, coupling_map := 6,
    operation_names := ["cx", "x"], instruction_durations := 7,
    instruction_schedule_map := 8, target := wTarget }

/-- A second backend with the same name as `wBackend` but a different
version, to observe which duplicate a search returns. -/
def wBackend2 : Backend Nat :=
  { wBackend with backend_version := 9 }

/-- A backend with a different name. -/
def wOther : Backend Nat :=
  { wBackend with name := "fake_armonk" }

/-- A concrete provider holding two same-named backends around a
differently named one. -/
def wProvider : Provider Nat :=
  ⟨[wBackend, wOther, wBackend2]⟩

/-- The outcome of an SDK access that did not raise. -/
abbrev isOk {E A : Type} (x : Except E A) : Prop := ∃ a, x = Except.ok a

/-- A concrete fallible backend all of whose accesses succeed. -/
def wFBackendOk : FBackend String Nat :=
  { name := Except.ok "fake_manila", backend_version := Except.ok 1,
    online_date := Except.ok 0, dt := Except.ok 0, dtm := Except.ok 0,
    max_circuits := Except.ok 0, num_qubits := Except.ok 2,
    coupling_map := Except.ok 0, operation_names := Except.ok ["x"],
    instruction_durations := Except.ok 0,
    instruction_schedule_map := Except.ok 0, target := Except.ok [],
    noise_model := Except.ok 0 }

/-- A concrete fallible backend whose `name` read raises. -/
def wFBackendNameBoom : FBackend String Nat :=
  { wFBackendOk with name := Except.error "nameboom" }

/-- A concrete fallible backend whose `dtm` read raises (the fifth attribute
read of `get_backend_info`). -/
def wFBackendDtmBoom : FBackend String Nat :=
  { wFBackendOk with dtm := Except.error "dtmboom" }

/-- A concrete fallible backend whose `coupling_map` read raises (the third
access of the simulator dict literal of `create_options`). -/
def wFBackendCmBoom : FBackend String Nat :=
  { wFBackendOk with coupling_map := Except.error "cmboom" }

/-- A concrete fallible provider whose second backend raises on its `name`
read. -/
def wFProvider : FProvider String Nat :=
  ⟨Except.ok [wFBackendOk, wFBackendNameBoom]⟩

/-- A concrete `backend_info` dictionary missing the `operation_names` key
(the ninth key `print_backend_info` reads). -/
def wInfoMissingOps : Dict String (InfoVal Nat) :=
  [ ("name", InfoVal.str "fake_manila"), ("version", InfoVal.sdk 1),
    ("online_date", InfoVal.sdk 2),
    ("syst_time_resolution_input_signals", InfoVal.sdk 3),
    ("syst_time_resolution_output_signals", InfoVal.sdk 4),
    ("max_circuits_per_job", InfoVal.sdk 5), ("num_qubits", InfoVal.nat 2),
    ("coupling_map", InfoVal.sdk 6), ("instruction_durations", InfoVal.sdk 7),
    ("instruction_schedule_map", InfoVal.sdk 8),
    ("target", InfoVal.target wTarget) ]

theorem optOr_none_right {α : Type} (x : Option α) : optOr x none = x := by
  cases x <;> rfl

theorem find?_append_eq_optOr {α : Type} (p : α → Bool) (l1 l2 : List α) :
    List.find? p (l1 ++ l2) = optOr (List.find? p l1) (List.find? p l2) := by
  induction l1 with
  | nil => rfl
  | cons a l ih =>
      cases hpa : p a with
      | true => simp [List.find?_cons, hpa, optOr]
      | false => simp [List.find?_cons, hpa, ih]

theorem search_backend_foldl_eq {V : Type} (n : String) (bs : List (Backend V))
    (acc : Option (Backend V)) :
    List.foldl
      (fun searched_backend backend =>
        if backend.name = n then some backend else searched_backend)
      acc bs
      = optOr (List.find? (fun b => decide (b.name = n)) bs.reverse) acc := by
  induction bs using List.reverseRecOn generalizing acc with
  | nil => rfl
  | append_singleton bs b ih =>
      rw [List.foldl_append, List.reverse_append]
      simp only [List.foldl_cons, List.foldl_nil, List.reverse_singleton,
        List.singleton_append, List.find?_cons]
      by_cases hb : b.name = n
      · simp [hb, optOr]
      · simp [hb, ih]

theorem search_backend_eq_find_rev {V : Type} (provider : Provider V) (n : String) :
    search_backend provider n
      = List.find? (fun b => decide (b.name = n)) provider.backends.reverse := by
  unfold search_backend
  rw [search_backend_foldl_eq, optOr_none_right]

/-- Claim C1: `search_backend(provider, searched_backend_name)` returns a
backend of `provider.backends()` whose `.name` equals the searched name when
at least one such backend exists, and returns `None` when no backend of the
provider has that name. -/
theorem search_backend_finds_named_backend {V : Type} (provider : Provider V)
    (n : String) :
    ((∃ b ∈ provider.backends, b.name = n) →
       ∃ b, search_backend provider n = some b ∧ b ∈ provider.backends ∧
         b.name = n) ∧
    ((∀ b ∈ provider.backends, b.name ≠ n) →
       search_backend provider n = none) := by
  constructor
  · rintro ⟨b, hb, hbn⟩
    rw [search_backend_eq_find_rev]
    cases hf : List.find? (fun x => decide (x.name = n)) provider.backends.reverse with
    | none =>
        exfalso
        have hnone := List.find?_eq_none.mp hf b (by simpa using hb)
        simp [hbn] at hnone
    | some c =>
        refine ⟨c, rfl, ?_, ?_⟩
        · have hmem := List.mem_of_find?_eq_some hf
          simpa using hmem
        · have hpc := List.find?_some hf
          simpa using hpc
  · intro hall
    rw [search_backend_eq_find_rev]
    apply List.find?_eq_none.mpr
    intro x hx
    simp only [List.mem_reverse] at hx
    simpa using hall x hx

/-- Witness for C1 at a concrete provider: a named backend is found, an
absent name yields `None`. -/
theorem search_backend_finds_named_backend_witness :
    (∃ b ∈ wProvider.backends, b.name = "fake_manila") ∧
    (∃ b, search_backend wProvider "fake_manila" = some b ∧
       b ∈ wProvider.backends ∧ b.name = "fake_manila") ∧
    (∀ b ∈ wProvider.backends, b.name ≠ "fake_paris") ∧
    search_backend wProvider "fake_paris" = none :=
  ⟨by decide,
   (search_backend_finds_named_backend wProvider "fake_manila").1 (by decide),
   by decide,
   (search_backend_finds_named_backend wProvider "fake_paris").2 (by decide)⟩

/-- Claim C9: the loop of `search_backend` never exits early and every later
match overwrites an earlier one, so the result is the last matching backend
in iteration order (the first match of the reversed list; explicitly, the
match after which no backend matches). -/
theorem search_backend_returns_last_match {V : Type} (provider : Provider V)
    (n : String) :
    (search_backend provider n
       = List.find? (fun b => decide (b.name = n)) provider.backends.reverse) ∧
    (∀ pre (b : Backend V) post, provider.backends = pre ++ b :: post →
       b.name = n → (∀ x ∈ post, x.name ≠ n) →
       search_backend provider n = some b) := by
  refine ⟨search_backend_eq_find_rev provider n, ?_⟩
  intro pre b post hsplit hb hpost
  rw [search_backend_eq_find_rev, hsplit, List.reverse_append, List.reverse_cons,
    find?_append_eq_optOr, find?_append_eq_optOr]
  have hnone : List.find? (fun x => decide (x.name = n)) post.reverse = none := by
    apply List.find?_eq_none.mpr
    intro x hx
    simp only [List.mem_reverse] at hx
    simpa using hpost x hx
  rw [hnone]
  simp [optOr, hb]

/-- Witness for C9 at a concrete provider holding two backends named
`fake_manila`: the second (last) one is returned. -/
theorem search_backend_returns_last_match_witness :
    wProvider.backends = [wBackend, wOther] ++ wBackend2 :: [] ∧
    wBackend2.name = "fake_manila" ∧
    (∀ x ∈ ([] : List (Backend Nat)), x.name ≠ "fake_manila") ∧
    search_backend wProvider "fake_manila" = some wBackend2 :=
  ⟨rfl, rfl, by decide,
   (search_backend_returns_last_match wProvider "fake_manila").2
     [wBackend, wOther] wBackend2 [] rfl rfl (by decide)⟩

theorem dinsert_append_of_not_mem {K A : Type} [DecidableEq K] (d : Dict K A)
    (k : K) (v : A) (h : ¬ k ∈ Dict.keys d) : dinsert d k v = d ++ [(k, v)] := by
  induction d with
  | nil => rfl
  | cons p rest ih =>
      obtain ⟨k1, a⟩ := p
      simp only [Dict.keys, List.map_cons, List.mem_cons] at h
      push_neg at h
      simp only [dinsert]
      rw [if_neg (fun hh => h.1 hh.symm), ih (by simpa [Dict.keys] using h.2)]
      simp

theorem keys_append {K A : Type} (d1 d2 : Dict K A) :
    Dict.keys (d1 ++ d2) = Dict.keys d1 ++ Dict.keys d2 := by
  simp [Dict.keys]

theorem foldl_inner_step_eq {V : Type}
    (qmap : Dict Qargs (Option (InstructionProperties V)))
    (acc : Dict Qargs (Option V))
    (hd : ∀ k ∈ Dict.keys qmap, ¬ k ∈ Dict.keys acc)
    (hn : (Dict.keys qmap).Nodup) :
    List.foldl gate_errors_inner_step acc qmap
      = acc ++ qmap.map (fun q => (q.1, Option.map InstructionProperties.error q.2)) := by
  induction qmap generalizing acc with
  | nil => simp
  | cons q rest ih =>
      obtain ⟨k, entry⟩ := q
      simp only [Dict.keys, List.map_cons, List.nodup_cons] at hn
      have hstep : gate_errors_inner_step acc (k, entry)
          = acc ++ [(k, Option.map InstructionProperties.error entry)] := by
        cases entry with
        | some props =>
            simpa [gate_errors_inner_step] using
              dinsert_append_of_not_mem acc k (some props.error)
                (hd k (by simp [Dict.keys]))
        | none =>
            simpa [gate_errors_inner_step] using
              dinsert_append_of_not_mem acc k (none : Option V)
                (hd k (by simp [Dict.keys]))
      rw [List.foldl_cons, hstep,
        ih (acc ++ [(k, Option.map InstructionProperties.error entry)]) ?hd2 hn.2]
      · simp
      case hd2 =>
        intro k2 hk2
        rw [keys_append]
        simp only [List.mem_append]
        push_neg
        refine ⟨hd k2 (by simp [Dict.keys]; right; exact (by simpa [Dict.keys] using hk2)), ?_⟩
        simp only [Dict.keys, List.map_cons, List.map_nil, List.mem_singleton]
        intro heq
        exact hn.1 (heq ▸ (by simpa [Dict.keys] using hk2))

theorem foldl_outer_step_eq {V : Type} (t : Target V)
    (acc : Dict String (Dict Qargs (Option V)))
    (hd : ∀ k ∈ Dict.keys t, ¬ k ∈ Dict.keys acc)
    (hn : (Dict.keys t).Nodup)
    (hin : ∀ p ∈ t, (Dict.keys p.2).Nodup) :
    List.foldl gate_errors_outer_step acc t
      = acc ++ t.map (fun p =>
          (p.1, p.2.map (fun q => (q.1, Option.map InstructionProperties.error q.2)))) := by
  induction t generalizing acc with
  | nil => simp
  | cons p rest ih =>
      obtain ⟨gate, qmap⟩ := p
      simp only [Dict.keys, List.map_cons, List.nodup_cons] at hn
      have hinner : List.foldl gate_errors_inner_step [] qmap
          = qmap.map (fun q => (q.1, Option.map InstructionProperties.error q.2)) := by
        rw [foldl_inner_step_eq qmap [] (by simp [Dict.keys]) (hin (gate, qmap) (by simp))]
        simp
      have hstep : gate_errors_outer_step acc (gate, qmap)
          = acc ++ [(gate, qmap.map (fun q => (q.1, Option.map InstructionProperties.error q.2)))] := by
        rw [gate_errors_outer_step, hinner]
        exact dinsert_append_of_not_mem acc gate _ (hd gate (by simp [Dict.keys]))
      rw [List.foldl_cons, hstep, ih (acc ++ _) ?hd2 hn.2 ?hin2]
      · simp
      case hd2 =>
        intro k2 hk2
        rw [keys_append]
        simp only [List.mem_append]
        push_neg
        refine ⟨hd k2 (by simp [Dict.keys]; right; exact (by simpa [Dict.keys] using hk2)), ?_⟩
        simp only [Dict.keys, List.map_cons, List.map_nil, List.mem_singleton]
        intro heq
        exact hn.1 (heq ▸ (by simpa [Dict.keys] using hk2))
      case hin2 =>
        intro p2 hp2
        exact hin p2 (by simp [hp2])

/-- Under the real-dictionary key uniqueness, `get_gate_errors` is the map
that keeps every gate and qubit tuple and replaces each entry by its
`.error` (or `None` for a `None` entry). -/
theorem get_gate_errors_eq_map {V : Type} (backend : Backend V)
    (hout : (Dict.keys backend.target).Nodup)
    (hin : ∀ p ∈ backend.target, (Dict.keys p.2).Nodup) :
    get_gate_errors backend
      = backend.target.map (fun p =>
          (p.1, p.2.map (fun q => (q.1, Option.map InstructionProperties.error q.2)))) := by
  rw [get_gate_errors, foldl_outer_step_eq backend.target [] (by simp [Dict.keys]) hout hin]
  simp

theorem dlookup_map_value {K A B : Type} [DecidableEq K] (g : A → B)
    (l : List (K × A)) (k : K) :
    dlookup (l.map (fun p => (p.1, g p.2))) k = (dlookup l k).map g := by
  induction l with
  | nil => rfl
  | cons p rest ih =>
      obtain ⟨k1, a⟩ := p
      by_cases h : k1 = k
      · simp [dlookup, h]
      · simp [dlookup, h, ih]

theorem keys_map_value {K A B : Type} (g : A → B) (l : List (K × A)) :
    Dict.keys (l.map (fun p => (p.1, g p.2))) = Dict.keys l := by
  induction l with
  | nil => rfl
  | cons p rest ih => simp only [Dict.keys, List.map_cons] at ih ⊢; rw [ih]

/-- Claim C2: for every backend, the dictionary built by `get_gate_errors`
has exactly the gates of `backend.target` as keys; for each gate the inner
keys are exactly the qubit tuples of `backend.target[gate]`; each inner value
is the entry's `.error` when the target entry is not `None` and `None` when
the entry is `None`.  The hypotheses state key uniqueness, which Python
dictionaries guarantee. -/
theorem get_gate_errors_matches_target {V : Type} (backend : Backend V)
    (hout : (Dict.keys backend.target).Nodup)
    (hin : ∀ p ∈ backend.target, (Dict.keys p.2).Nodup) :
    Dict.keys (get_gate_errors backend) = Dict.keys backend.target ∧
    ∀ gate qmap, dlookup backend.target gate = some qmap →
      ∃ d, dlookup (get_gate_errors backend) gate = some d ∧
        Dict.keys d = Dict.keys qmap ∧
        ∀ qbits, dlookup d qbits
          = (dlookup qmap qbits).map (Option.map InstructionProperties.error) := by
  have hmap := get_gate_errors_eq_map backend hout hin
  constructor
  · rw [hmap]
    exact keys_map_value _ backend.target
  · intro gate qmap hq
    refine ⟨qmap.map (fun q => (q.1, Option.map InstructionProperties.error q.2)),
      ?_, ?_, ?_⟩
    · have h2 := dlookup_map_value
        (fun a => List.map
          (fun q => (q.1, Option.map InstructionProperties.error q.2)) a)
        backend.target gate
      rw [hmap, h2, hq]
      rfl
    · exact keys_map_value _ qmap
    · intro qbits
      exact dlookup_map_value (Option.map InstructionProperties.error) qmap qbits

/-- Witness for C2 at the concrete backend `wBackend`: the key hypotheses
hold by computation, the key list is preserved, and the whole result dict
evaluates to the expected errors. -/
theorem get_gate_errors_matches_target_witness :
    (Dict.keys wBackend.target).Nodup ∧
    (∀ p ∈ wBackend.target, (Dict.keys p.2).Nodup) ∧
    Dict.keys (get_gate_errors wBackend) = Dict.keys wBackend.target ∧
    get_gate_errors wBackend
      = [("cx", [([0, 1], some 5), ([1, 0], none)]), ("x", [([0], some 4)])] :=
  ⟨by decide, by decide,
   (get_gate_errors_matches_target wBackend (by decide) (by decide)).1,
   by decide⟩

/-- Claim C10: the `.duration`/`.error` attributes are read only on the
branch where the target entry was checked not to be `None` (the typed
embedding makes an attribute access on `None` unrepresentable, mirroring
that the source only reaches `.error`/`.duration` under the `!= None`
test); a `None` entry yields the stored value `None` in `get_gate_errors`
and the printed line `duration=None, error=None` in `print_backend_info`. -/
theorem none_entries_yield_none {V : Type} (backend : Backend V)
    (fmtV : V → String) (fmtQ : Qargs → String)
    (hout : (Dict.keys backend.target).Nodup)
    (hin : ∀ p ∈ backend.target, (Dict.keys p.2).Nodup) :
    (∀ gate qmap qbits, dlookup backend.target gate = some qmap →
       dlookup qmap qbits = some none →
       ∃ d, dlookup (get_gate_errors backend) gate = some d ∧
         dlookup d qbits = some none) ∧
    (∀ p ∈ backend.target, ∀ q ∈ p.2, q.2 = none →
       ∃ lines, print_backend_info fmtV fmtQ (get_backend_info backend)
           = Except.ok lines ∧
         ("\t\tQubit(s) " ++ fmtQ q.1 ++ ": duration=None, error=None") ∈ lines) := by
  have hmap := get_gate_errors_eq_map backend hout hin
  constructor
  · intro gate qmap qbits hg hq
    refine ⟨qmap.map (fun q => (q.1, Option.map InstructionProperties.error q.2)),
      ?_, ?_⟩
    · have h2 := dlookup_map_value
        (fun a => List.map
          (fun q => (q.1, Option.map InstructionProperties.error q.2)) a)
        backend.target gate
      rw [hmap, h2, hg]
      rfl
    · have h3 := dlookup_map_value (Option.map InstructionProperties.error) qmap qbits
      rw [h3, hq]
      rfl
  · intro p hp q hq hqnone
    obtain ⟨q1, q2⟩ := q
    subst hqnone
    refine ⟨_, rfl, ?_⟩
    apply List.mem_append_right
    refine List.mem_flatMap.mpr ⟨p, hp, ?_⟩
    apply List.mem_cons_of_mem
    exact List.mem_map.mpr ⟨(q1, none), hq, rfl⟩

/-- Witness for C10 at the concrete backend `wBackend`, whose `cx` gate has a
`None` entry at qubit tuple `[1, 0]`. -/
theorem none_entries_yield_none_witness :
    (Dict.keys wBackend.target).Nodup ∧
    (∀ p ∈ wBackend.target, (Dict.keys p.2).Nodup) ∧
    dlookup wBackend.target "cx" = some [([0, 1], some ⟨3, 5⟩), ([1, 0], none)] ∧
    (∃ d, dlookup (get_gate_errors wBackend) "cx" = some d ∧
       dlookup d [1, 0] = some none) ∧
    (∃ lines, print_backend_info toString toString (get_backend_info wBackend)
        = Except.ok lines ∧
      ("\t\tQubit(s) " ++ toString ([1, 0] : Qargs) ++ ": duration=None, error=None")
        ∈ lines) :=
  ⟨by decide, by decide, by decide,
   (none_entries_yield_none wBackend toString toString (by decide) (by decide)).1
     "cx" [([0, 1], some ⟨3, 5⟩), ([1, 0], none)] [1, 0] (by decide) (by decide),
   (none_entries_yield_none wBackend toString toString (by decide) (by decide)).2
     ("cx", [([0, 1], some ⟨3, 5⟩), ([1, 0], none)]) (by decide)
     ([1, 0], none) (by decide) rfl⟩

/-- Claim C5: `get_backend_info` returns a dictionary with exactly the twelve
listed keys, in source order, each mapped to the corresponding backend
attribute; the embedding is a pure function of the backend, which it does not
modify. -/
theorem get_backend_info_twelve_fields {V : Type} (backend : Backend V) :
    Dict.keys (get_backend_info backend)
      = [ "name", "version", "online_date",
          "syst_time_resolution_input_signals",
          "syst_time_resolution_output_signals", "max_circuits_per_job",
          "num_qubits", "coupling_map", "operation_names",
          "instruction_durations", "instruction_schedule_map", "target" ] ∧
    dlookup (get_backend_info backend) "name"
      = some (InfoVal.str backend.name) ∧
    dlookup (get_backend_info backend) "version"
      = some (InfoVal.sdk backend.backend_version) ∧
    dlookup (get_backend_info backend) "online_date"
      = some (InfoVal.sdk backend.online_date) ∧
    dlookup (get_backend_info backend) "syst_time_resolution_input_signals"
      = some (InfoVal.sdk backend.dt) ∧
    dlookup (get_backend_info backend) "syst_time_resolution_output_signals"
      = some (InfoVal.sdk backend.dtm) ∧
    dlookup (get_backend_info backend) "max_circuits_per_job"
      = some (InfoVal.sdk backend.max_circuits) ∧
    dlookup (get_backend_info backend) "num_qubits"
      = some (InfoVal.nat backend.num_qubits) ∧
    dlookup (get_backend_info backend) "coupling_map"
      = some (InfoVal.sdk backend.coupling_map) ∧
    dlookup (get_backend_info backend) "operation_names"
      = some (InfoVal.strList backend.operation_names) ∧
    dlookup (get_backend_info backend) "instruction_durations"
      = some (InfoVal.sdk backend.instruction_durations) ∧
    dlookup (get_backend_info backend) "instruction_schedule_map"
      = some (InfoVal.sdk backend.instruction_schedule_map) ∧
    dlookup (get_backend_info backend) "target"
      = some (InfoVal.target backend.target) :=
  ⟨rfl, rfl, rfl, rfl, rfl, rfl, rfl, rfl, rfl, rfl, rfl, rfl, rfl⟩

/-- Claim C3: with a backend given, `create_options` sets shots to
`nb_shots`, optimization level 0, resilience level 0, and fills the
`simulator` section with the noise model built from that backend, its
operation names as basis gates and its coupling map. -/
theorem create_options_noisy {V : Type} (nb_shots : Nat) (backend : Backend V) :
    (create_options nb_shots (some backend)).execution_shots = nb_shots ∧
    (create_options nb_shots (some backend)).optimization_level = 0 ∧
    (create_options nb_shots (some backend)).resilience_level = 0 ∧
    (create_options nb_shots (some backend)).simulator
      = some { noise_model := noiseModel_from_backend backend,
               basis_gates := backend.operation_names,
               coupling_map := backend.coupling_map } :=
  ⟨rfl, rfl, rfl, rfl⟩

/-- Claim C4: with the backend omitted (`None`), `create_options` sets shots
to `nb_shots`, optimization level 0, resilience level 0, and leaves the
`simulator` section unset: noiseless estimation. -/
theorem create_options_noiseless {V : Type} (nb_shots : Nat) :
    (create_options nb_shots (none : Option (Backend V))).execution_shots
      = nb_shots ∧
    (create_options nb_shots (none : Option (Backend V))).optimization_level
      = 0 ∧
    (create_options nb_shots (none : Option (Backend V))).resilience_level
      = 0 ∧
    (create_options nb_shots (none : Option (Backend V))).simulator = none :=
  ⟨rfl, rfl, rfl, rfl⟩

/-- Claim C7: the script builds the fixed two-qubit circuit (Hadamard on
qubit 0, X on qubit 1, CX from 0 to 1, then measure all, which appends a
barrier and two measurements into a fresh classical register) and submits
exactly that circuit twice, once with the noiseless options and once with
the noise-model options, each time transpiled for and run in a session on
`ibmq_qasm_simulator`. -/
theorem script_submits_fixed_circuit_twice {V : Type} (provider : Provider V) :
    qc = ⟨2, 4, [Instr.h 0, Instr.x 1, Instr.cx 0 1, Instr.barrier [0, 1],
                 Instr.measure 0 2, Instr.measure 1 3]⟩ ∧
    main_submissions provider
      = [ ⟨"ibmq_qasm_simulator", create_options 1024 none, qc,
            "ibmq_qasm_simulator"⟩,
          ⟨"ibmq_qasm_simulator",
            create_options 1024 (search_backend provider "fake_melbourne"), qc,
            "ibmq_qasm_simulator"⟩ ] ∧
    (create_options 1024 (none : Option (Backend V))).simulator = none ∧
    (create_options 1024 (search_backend provider "fake_melbourne")).simulator
      = Option.map
          (fun b => { noise_model := noiseModel_from_backend b,
                      basis_gates := b.operation_names,
                      coupling_map := b.coupling_map })
          (search_backend provider "fake_melbourne") := by
  refine ⟨rfl, rfl, rfl, ?_⟩
  cases search_backend provider "fake_melbourne" <;> rfl

theorem bind_ok_eq {E A B : Type} (a : A) (f : A → Except E B) :
    (Except.ok a : Except E A) >>= f = f a := rfl

theorem bind_error_eq {E A B : Type} (e : E) (f : A → Except E B) :
    (Except.error e : Except E A) >>= f = Except.error e := rfl

theorem pure_eq_ok {E A : Type} (a : A) : (pure a : Except E A) = Except.ok a := rfl

theorem foldlM_cons_eq {m : Type → Type} [Monad m] {S A : Type}
    (f : S → A → m S) (s : S) (a : A) (l : List A) :
    List.foldlM f s (a :: l) = f s a >>= fun s2 => List.foldlM f s2 l := rfl

/-- The loop of `search_backend` raises at the first `backend.name` read that
raises: once the names before `b` have been read successfully, a raise at `b`
propagates, whatever the accumulator holds. -/
theorem search_loop_raises {E V : Type} (n : String) (b : FBackend E V)
    (post : List (FBackend E V)) (e : E) (hb : b.name = Except.error e)
    (pre : List (FBackend E V)) :
    ∀ (acc : Option (FBackend E V)), (∀ x ∈ pre, isOk x.name) →
      List.foldlM
        (fun searched_backend backend => do
          let nm ← backend.name
          if nm = n then return some backend
          else return searched_backend)
        acc (pre ++ b :: post) = Except.error e := by
  induction pre with
  | nil =>
      intro acc _
      simp only [List.nil_append, foldlM_cons_eq]
      rw [hb]
      rfl
  | cons x pre ih =>
      intro acc hpre
      obtain ⟨s, hs⟩ := hpre x (by simp)
      have hpre2 : ∀ y ∈ pre, isOk y.name := fun y hy => hpre y (by simp [hy])
      simp only [List.cons_append, foldlM_cons_eq]
      rw [hs]
      simp only [bind_ok_eq]
      by_cases hsn : s = n
      · simp only [if_pos hsn, pure_eq_ok, bind_ok_eq]
        exact ih (some x) hpre2
      · simp only [if_neg hsn, pure_eq_ok, bind_ok_eq]
        exact ih acc hpre2

/-- Claim C6: none of the helpers guards an SDK access with `try`/`except`,
so in the monadic embedding a raise at any modelled SDK access point of any
helper propagates to the caller unchanged, and no conjunct recovers or
retries: the `provider.backends()` call and every `backend.name` read of the
loop in `search_backend`; each of the twelve attribute reads of
`get_backend_info`, in dict-literal order; the `backend.target` read of
`get_gate_errors`; the `NoiseModel.from_backend(backend)` call and the
`operation_names` and `coupling_map` reads of `create_options`; and each of
the ten key lookups, the `draw()` call and the `.keys()` access of
`print_backend_info`, in print order. -/
theorem helpers_propagate_sdk_errors (E V : Type) :
    (∀ (e : E) (n : String),
       search_backendE (⟨Except.error e⟩ : FProvider E V) n = Except.error e) ∧
    (∀ (provider : FProvider E V) (bs pre post : List (FBackend E V))
       (b : FBackend E V) (n : String) (e : E),
       provider.backends = Except.ok bs → bs = pre ++ b :: post →
       (∀ x ∈ pre, isOk x.name) → b.name = Except.error e →
       search_backendE provider n = Except.error e) ∧
    (∀ (b : FBackend E V) (e : E), b.name = Except.error e →
       get_backend_infoE b = Except.error e) ∧
    (∀ (b : FBackend E V) (e : E), isOk b.name →
       b.backend_version = Except.error e →
       get_backend_infoE b = Except.error e) ∧
    (∀ (b : FBackend E V) (e : E), isOk b.name → isOk b.backend_version →
       b.online_date = Except.error e →
       get_backend_infoE b = Except.error e) ∧
    (∀ (b : FBackend E V) (e : E), isOk b.name → isOk b.backend_version →
       isOk b.online_date → b.dt = Except.error e →
       get_backend_infoE b = Except.error e) ∧
    (∀ (b : FBackend E V) (e : E), isOk b.name → isOk b.backend_version →
       isOk b.online_date → isOk b.dt → b.dtm = Except.error e →
       get_backend_infoE b = Except.error e) ∧
    (∀ (b : FBackend E V) (e : E), isOk b.name → isOk b.backend_version →
       isOk b.online_date → isOk b.dt → isOk b.dtm →
       b.max_circuits = Except.error e →
       get_backend_infoE b = Except.error e) ∧
    (∀ (b : FBackend E V) (e : E), isOk b.name → isOk b.backend_version →
       isOk b.online_date → isOk b.dt → isOk b.dtm → isOk b.max_circuits →
       b.num_qubits = Except.error e →
       get_backend_infoE b = Except.error e) ∧
    (∀ (b : FBackend E V) (e : E), isOk b.name → isOk b.backend_version →
       isOk b.online_date → isOk b.dt → isOk b.dtm → isOk b.max_circuits →
       isOk b.num_qubits → b.coupling_map = Except.error e →
       get_backend_infoE b = Except.error e) ∧
    (∀ (b : FBackend E V) (e : E), isOk b.name → isOk b.backend_version →
       isOk b.online_date → isOk b.dt → isOk b.dtm → isOk b.max_circuits →
       isOk b.num_qubits → isOk b.coupling_map →
       b.operation_names = Except.error e →
       get_backend_infoE b = Except.error e) ∧
    (∀ (b : FBackend E V) (e : E), isOk b.name → isOk b.backend_version →
       isOk b.online_date → isOk b.dt → isOk b.dtm → isOk b.max_circuits →
       isOk b.num_qubits → isOk b.coupling_map → isOk b.operation_names →
       b.instruction_durations = Except.error e →
       get_backend_infoE b = Except.error e) ∧
    (∀ (b : FBackend E V) (e : E), isOk b.name → isOk b.backend_version →
       isOk b.online_date → isOk b.dt → isOk b.dtm → isOk b.max_circuits →
       isOk b.num_qubits → isOk b.coupling_map → isOk b.operation_names →
       isOk b.instruction_durations →
       b.instruction_schedule_map = Except.error e →
       get_backend_infoE b = Except.error e) ∧
    (∀ (b : FBackend E V) (e : E), isOk b.name → isOk b.backend_version →
       isOk b.online_date → isOk b.dt → isOk b.dtm → isOk b.max_circuits →
       isOk b.num_qubits → isOk b.coupling_map → isOk b.operation_names →
       isOk b.instruction_durations → isOk b.instruction_schedule_map →
       b.target = Except.error e →
       get_backend_infoE b = Except.error e) ∧
    (∀ (b : FBackend E V) (e : E), b.target = Except.error e →
       get_gate_errorsE b = Except.error e) ∧
    (∀ (nb_shots : Nat) (b : FBackend E V) (e : E),
       b.noise_model = Except.error e →
       create_optionsE nb_shots (some b) = Except.error e) ∧
    (∀ (nb_shots : Nat) (b : FBackend E V) (e : E), isOk b.noise_model →
       b.operation_names = Except.error e →
       create_optionsE nb_shots (some b) = Except.error e) ∧
    (∀ (nb_shots : Nat) (b : FBackend E V) (e : E), isOk b.noise_model →
       isOk b.operation_names → b.coupling_map = Except.error e →
       create_optionsE nb_shots (some b) = Except.error e) ∧
    (∀ (fmtV : V → String) (fmtQ : Qargs → String)
       (info : Dict String (InfoVal V)),
       dlookup info "name" = none →
       print_backend_info fmtV fmtQ info
         = Except.error (PyErr.keyError "name")) ∧
    (∀ (fmtV : V → String) (fmtQ : Qargs → String)
       (info : Dict String (InfoVal V)), isOk (getItem info "name") →
       dlookup info "version" = none →
       print_backend_info fmtV fmtQ info
         = Except.error (PyErr.keyError "version")) ∧
    (∀ (fmtV : V → String) (fmtQ : Qargs → String)
       (info : Dict String (InfoVal V)), isOk (getItem info "name") →
       isOk (getItem info "version") →
       dlookup info "online_date" = none →
       print_backend_info fmtV fmtQ info
         = Except.error (PyErr.keyError "online_date")) ∧
    (∀ (fmtV : V → String) (fmtQ : Qargs → String)
       (info : Dict String (InfoVal V)), isOk (getItem info "name") →
       isOk (getItem info "version") → isOk (getItem info "online_date") →
       dlookup info "max_circuits_per_job" = none →
       print_backend_info fmtV fmtQ info
         = Except.error (PyErr.keyError "max_circuits_per_job")) ∧
    (∀ (fmtV : V → String) (fmtQ : Qargs → String)
       (info : Dict String (InfoVal V)), isOk (getItem info "name") →
       isOk (getItem info "version") → isOk (getItem info "online_date") →
       isOk (getItem info "max_circuits_per_job") →
       dlookup info "num_qubits" = none →
       print_backend_info fmtV fmtQ info
         = Except.error (PyErr.keyError "num_qubits")) ∧
    (∀ (fmtV : V → String) (fmtQ : Qargs → String)
       (info : Dict String (InfoVal V)), isOk (getItem info "name") →
       isOk (getItem info "version") → isOk (getItem info "online_date") →
       isOk (getItem info "max_circuits_per_job") →
       isOk (getItem info "num_qubits") →
       dlookup info "syst_time_resolution_input_signals" = none →
       print_backend_info fmtV fmtQ info
         = Except.error (PyErr.keyError "syst_time_resolution_input_signals")) ∧
    (∀ (fmtV : V → String) (fmtQ : Qargs → String)
       (info : Dict String (InfoVal V)), isOk (getItem info "name") →
       isOk (getItem info "version") → isOk (getItem info "online_date") →
       isOk (getItem info "max_circuits_per_job") →
       isOk (getItem info "num_qubits") →
       isOk (getItem info "syst_time_resolution_input_signals") →
       dlookup info "syst_time_resolution_output_signals" = none →
       print_backend_info fmtV fmtQ info
         = Except.error (PyErr.keyError "syst_time_resolution_output_signals")) ∧
    (∀ (fmtV : V → String) (fmtQ : Qargs → String)
       (info : Dict String (InfoVal V)), isOk (getItem info "name") →
       isOk (getItem info "version") → isOk (getItem info "online_date") →
       isOk (getItem info "max_circuits_per_job") →
       isOk (getItem info "num_qubits") →
       isOk (getItem info "syst_time_resolution_input_signals") →
       isOk (getItem info "syst_time_resolution_output_signals") →
       dlookup info "coupling_map" = none →
       print_backend_info fmtV fmtQ info
         = Except.error (PyErr.keyError "coupling_map")) ∧
    (∀ (fmtV : V → String) (fmtQ : Qargs → String)
       (info : Dict String (InfoVal V)) (err : PyErr),
       isOk (getItem info "name") → isOk (getItem info "version") →
       isOk (getItem info "online_date") →
       isOk (getItem info "max_circuits_per_job") →
       isOk (getItem info "num_qubits") →
       isOk (getItem info "syst_time_resolution_input_signals") →
       isOk (getItem info "syst_time_resolution_output_signals") →
       (∃ v, getItem info "coupling_map" = Except.ok v ∧
          drawCouplingMap v = Except.error err) →
       print_backend_info fmtV fmtQ info = Except.error err) ∧
    (∀ (fmtV : V → String) (fmtQ : Qargs → String)
       (info : Dict String (InfoVal V)), isOk (getItem info "name") →
       isOk (getItem info "version") → isOk (getItem info "online_date") →
       isOk (getItem info "max_circuits_per_job") →
       isOk (getItem info "num_qubits") →
       isOk (getItem info "syst_time_resolution_input_signals") →
       isOk (getItem info "syst_time_resolution_output_signals") →
       (∃ v, getItem info "coupling_map" = Except.ok v ∧
          drawCouplingMap v = Except.ok ()) →
       dlookup info "operation_names" = none →
       print_backend_info fmtV fmtQ info
         = Except.error (PyErr.keyError "operation_names")) ∧
    (∀ (fmtV : V → String) (fmtQ : Qargs → String)
       (info : Dict String (InfoVal V)), isOk (getItem info "name") →
       isOk (getItem info "version") → isOk (getItem info "online_date") →
       isOk (getItem info "max_circuits_per_job") →
       isOk (getItem info "num_qubits") →
       isOk (getItem info "syst_time_resolution_input_signals") →
       isOk (getItem info "syst_time_resolution_output_signals") →
       (∃ v, getItem info "coupling_map" = Except.ok v ∧
          drawCouplingMap v = Except.ok ()) →
       isOk (getItem info "operation_names") →
       dlookup info "target" = none →
       print_backend_info fmtV fmtQ info
         = Except.error (PyErr.keyError "target")) ∧
    (∀ (fmtV : V → String) (fmtQ : Qargs → String)
       (info : Dict String (InfoVal V)) (err : PyErr),
       isOk (getItem info "name") → isOk (getItem info "version") →
       isOk (getItem info "online_date") →
       isOk (getItem info "max_circuits_per_job") →
       isOk (getItem info "num_qubits") →
       isOk (getItem info "syst_time_resolution_input_signals") →
       isOk (getItem info "syst_time_resolution_output_signals") →
       (∃ v, getItem info "coupling_map" = Except.ok v ∧
          drawCouplingMap v = Except.ok ()) →
       isOk (getItem info "operation_names") →
       (∃ tv, getItem info "target" = Except.ok tv ∧
          asTarget tv = Except.error err) →
       print_backend_info fmtV fmtQ info = Except.error err) := by
  refine ⟨fun e n => rfl, ?_, ?_, ?_, ?_, ?_, ?_, ?_, ?_, ?_, ?_, ?_, ?_, ?_,
    ?_, ?_, ?_, ?_, ?_, ?_, ?_, ?_, ?_, ?_, ?_, ?_, ?_, ?_, ?_, ?_⟩
  · intro provider bs pre post b n e hprov hbs hpre hb
    subst hbs
    unfold search_backendE
    rw [hprov]
    simp only [bind_ok_eq]
    exact search_loop_raises n b post e hb pre none hpre
  · intro b e h
    unfold get_backend_infoE
    rw [h]
    rfl
  · rintro b e ⟨a1, h1⟩ herr
    unfold get_backend_infoE
    rw [h1, herr]
    rfl
  · rintro b e ⟨a1, h1⟩ ⟨a2, h2⟩ herr
    unfold get_backend_infoE
    rw [h1, h2, herr]
    rfl
  · rintro b e ⟨a1, h1⟩ ⟨a2, h2⟩ ⟨a3, h3⟩ herr
    unfold get_backend_infoE
    rw [h1, h2, h3, herr]
    rfl
  · rintro b e ⟨a1, h1⟩ ⟨a2, h2⟩ ⟨a3, h3⟩ ⟨a4, h4⟩ herr
    unfold get_backend_infoE
    rw [h1, h2, h3, h4, herr]
    rfl
  · rintro b e ⟨a1, h1⟩ ⟨a2, h2⟩ ⟨a3, h3⟩ ⟨a4, h4⟩ ⟨a5, h5⟩ herr
    unfold get_backend_infoE
    rw [h1, h2, h3, h4, h5, herr]
    rfl
  · rintro b e ⟨a1, h1⟩ ⟨a2, h2⟩ ⟨a3, h3⟩ ⟨a4, h4⟩ ⟨a5, h5⟩ ⟨a6, h6⟩ herr
    unfold get_backend_infoE
    rw [h1, h2, h3, h4, h5, h6, herr]
    rfl
  · rintro b e ⟨a1, h1⟩ ⟨a2, h2⟩ ⟨a3, h3⟩ ⟨a4, h4⟩ ⟨a5, h5⟩ ⟨a6, h6⟩ ⟨a7, h7⟩ herr
    unfold get_backend_infoE
    rw [h1, h2, h3, h4, h5, h6, h7, herr]
    rfl
  · rintro b e ⟨a1, h1⟩ ⟨a2, h2⟩ ⟨a3, h3⟩ ⟨a4, h4⟩ ⟨a5, h5⟩ ⟨a6, h6⟩ ⟨a7, h7⟩
      ⟨a8, h8⟩ herr
    unfold get_backend_infoE
    rw [h1, h2, h3, h4, h5, h6, h7, h8, herr]
    rfl
  · rintro b e ⟨a1, h1⟩ ⟨a2, h2⟩ ⟨a3, h3⟩ ⟨a4, h4⟩ ⟨a5, h5⟩ ⟨a6, h6⟩ ⟨a7, h7⟩
      ⟨a8, h8⟩ ⟨a9, h9⟩ herr
    unfold get_backend_infoE
    rw [h1, h2, h3, h4, h5, h6, h7, h8, h9, herr]
    rfl
  · rintro b e ⟨a1, h1⟩ ⟨a2, h2⟩ ⟨a3, h3⟩ ⟨a4, h4⟩ ⟨a5, h5⟩ ⟨a6, h6⟩ ⟨a7, h7⟩
      ⟨a8, h8⟩ ⟨a9, h9⟩ ⟨a10, h10⟩ herr
    unfold get_backend_infoE
    rw [h1, h2, h3, h4, h5, h6, h7, h8, h9, h10, herr]
    rfl
  · rintro b e ⟨a1, h1⟩ ⟨a2, h2⟩ ⟨a3, h3⟩ ⟨a4, h4⟩ ⟨a5, h5⟩ ⟨a6, h6⟩ ⟨a7, h7⟩
      ⟨a8, h8⟩ ⟨a9, h9⟩ ⟨a10, h10⟩ ⟨a11, h11⟩ herr
    unfold get_backend_infoE
    rw [h1, h2, h3, h4, h5, h6, h7, h8, h9, h10, h11, herr]
    rfl
  · intro b e h
    unfold get_gate_errorsE
    rw [h]
    rfl
  · intro nb_shots b e h
    simp only [create_optionsE]
    rw [h]
    rfl
  · rintro nb_shots b e ⟨a1, h1⟩ herr
    simp only [create_optionsE]
    rw [h1, herr]
    rfl
  · rintro nb_shots b e ⟨a1, h1⟩ ⟨a2, h2⟩ herr
    simp only [create_optionsE]
    rw [h1, h2, herr]
    rfl
  · intro fmtV fmtQ info hnone
    have herr : getItem info "name" = Except.error (PyErr.keyError "name") := by
      unfold getItem
      rw [hnone]
    unfold print_backend_info
    rw [herr]
    rfl
  · rintro fmtV fmtQ info ⟨v1, h1⟩ hnone
    have herr : getItem info "version"
        = Except.error (PyErr.keyError "version") := by
      unfold getItem
      rw [hnone]
    unfold print_backend_info
    rw [h1, herr]
    rfl
  · rintro fmtV fmtQ info ⟨v1, h1⟩ ⟨v2, h2⟩ hnone
    have herr : getItem info "online_date"
        = Except.error (PyErr.keyError "online_date") := by
      unfold getItem
      rw [hnone]
    unfold print_backend_info
    rw [h1, h2, herr]
    rfl
  · rintro fmtV fmtQ info ⟨v1, h1⟩ ⟨v2, h2⟩ ⟨v3, h3⟩ hnone
    have herr : getItem info "max_circuits_per_job"
        = Except.error (PyErr.keyError "max_circuits_per_job") := by
      unfold getItem
      rw [hnone]
    unfold print_backend_info
    rw [h1, h2, h3, herr]
    rfl
  · rintro fmtV fmtQ info ⟨v1, h1⟩ ⟨v2, h2⟩ ⟨v3, h3⟩ ⟨v4, h4⟩ hnone
    have herr : getItem info "num_qubits"
        = Except.error (PyErr.keyError "num_qubits") := by
      unfold getItem
      rw [hnone]
    unfold print_backend_info
    rw [h1, h2, h3, h4, herr]
    rfl
  · rintro fmtV fmtQ info ⟨v1, h1⟩ ⟨v2, h2⟩ ⟨v3, h3⟩ ⟨v4, h4⟩ ⟨v5, h5⟩ hnone
    have herr : getItem info "syst_time_resolution_input_signals"
        = Except.error (PyErr.keyError "syst_time_resolution_input_signals") := by
      unfold getItem
      rw [hnone]
    unfold print_backend_info
    rw [h1, h2, h3, h4, h5, herr]
    rfl
  · rintro fmtV fmtQ info ⟨v1, h1⟩ ⟨v2, h2⟩ ⟨v3, h3⟩ ⟨v4, h4⟩ ⟨v5, h5⟩ ⟨v6, h6⟩
      hnone
    have herr : getItem info "syst_time_resolution_output_signals"
        = Except.error (PyErr.keyError "syst_time_resolution_output_signals") := by
      unfold getItem
      rw [hnone]
    unfold print_backend_info
    rw [h1, h2, h3, h4, h5, h6, herr]
    rfl
  · rintro fmtV fmtQ info ⟨v1, h1⟩ ⟨v2, h2⟩ ⟨v3, h3⟩ ⟨v4, h4⟩ ⟨v5, h5⟩ ⟨v6, h6⟩
      ⟨v7, h7⟩ hnone
    have herr : getItem info "coupling_map"
        = Except.error (PyErr.keyError "coupling_map") := by
      unfold getItem
      rw [hnone]
    unfold print_backend_info
    rw [h1, h2, h3, h4, h5, h6, h7, herr]
    rfl
  · rintro fmtV fmtQ info err ⟨v1, h1⟩ ⟨v2, h2⟩ ⟨v3, h3⟩ ⟨v4, h4⟩ ⟨v5, h5⟩
      ⟨v6, h6⟩ ⟨v7, h7⟩ ⟨cv, hcv, hdraw⟩
    unfold print_backend_info
    rw [h1, h2, h3, h4, h5, h6, h7, hcv]
    simp only [bind_ok_eq, hdraw, bind_error_eq]
  · rintro fmtV fmtQ info ⟨v1, h1⟩ ⟨v2, h2⟩ ⟨v3, h3⟩ ⟨v4, h4⟩ ⟨v5, h5⟩ ⟨v6, h6⟩
      ⟨v7, h7⟩ ⟨cv, hcv, hdraw⟩ hnone
    have herr : getItem info "operation_names"
        = Except.error (PyErr.keyError "operation_names") := by
      unfold getItem
      rw [hnone]
    unfold print_backend_info
    rw [h1, h2, h3, h4, h5, h6, h7, hcv, herr]
    simp only [bind_ok_eq, hdraw, bind_error_eq]
  · rintro fmtV fmtQ info ⟨v1, h1⟩ ⟨v2, h2⟩ ⟨v3, h3⟩ ⟨v4, h4⟩ ⟨v5, h5⟩ ⟨v6, h6⟩
      ⟨v7, h7⟩ ⟨cv, hcv, hdraw⟩ ⟨v9, h9⟩ hnone
    have herr : getItem info "target"
        = Except.error (PyErr.keyError "target") := by
      unfold getItem
      rw [hnone]
    unfold print_backend_info
    rw [h1, h2, h3, h4, h5, h6, h7, hcv, h9, herr]
    simp only [bind_ok_eq, hdraw, bind_error_eq]
  · rintro fmtV fmtQ info err ⟨v1, h1⟩ ⟨v2, h2⟩ ⟨v3, h3⟩ ⟨v4, h4⟩ ⟨v5, h5⟩
      ⟨v6, h6⟩ ⟨v7, h7⟩ ⟨cv, hcv, hdraw⟩ ⟨v9, h9⟩ ⟨tv, htv, hAs⟩
    unfold print_backend_info
    rw [h1, h2, h3, h4, h5, h6, h7, hcv, h9, htv]
    simp only [bind_ok_eq, hdraw, hAs, bind_error_eq]

/-- Witness for C6 at concrete inputs, one per helper: a raising
`backend.name` read inside the search loop, a raising `dtm` read (the fifth
attribute of `get_backend_info`), a raising `coupling_map` read (the third
access of `create_options`'s simulator dict), and a missing
`operation_names` key (the ninth lookup of `print_backend_info`, past the
`draw()` call); each helper raises that same error. -/
theorem helpers_propagate_sdk_errors_witness :
    wFBackendNameBoom.name = Except.error "nameboom" ∧
    search_backendE wFProvider "fake_manila" = Except.error "nameboom" ∧
    wFBackendDtmBoom.dtm = Except.error "dtmboom" ∧
    get_backend_infoE wFBackendDtmBoom = Except.error "dtmboom" ∧
    wFBackendCmBoom.coupling_map = Except.error "cmboom" ∧
    create_optionsE 7 (some wFBackendCmBoom) = Except.error "cmboom" ∧
    dlookup wInfoMissingOps "operation_names" = none ∧
    print_backend_info toString toString wInfoMissingOps
      = Except.error (PyErr.keyError "operation_names") := by
  have h := helpers_propagate_sdk_errors String Nat
  obtain ⟨hs1, hs2, hg1, hg2, hg3, hg4, hg5, hg6, hg7, hg8, hg9, hg10, hg11,
    hg12, hge, hco1, hco2, hco3, hp1, hp2, hp3, hp4, hp5, hp6, hp7, hp8, hpd,
    hp9, hp10, hpa⟩ := h
  refine ⟨rfl, ?_, rfl, ?_, rfl, ?_, rfl, ?_⟩
  · exact hs2 wFProvider [wFBackendOk, wFBackendNameBoom] [wFBackendOk] []
      wFBackendNameBoom "fake_manila" "nameboom" rfl rfl
      (by
        intro x hx
        rw [List.mem_singleton] at hx
        subst hx
        exact ⟨"fake_manila", rfl⟩)
      rfl
  · exact hg5 wFBackendDtmBoom "dtmboom" ⟨"fake_manila", rfl⟩ ⟨1, rfl⟩
      ⟨0, rfl⟩ ⟨0, rfl⟩ rfl
  · exact hco3 7 wFBackendCmBoom "cmboom" ⟨0, rfl⟩ ⟨["x"], rfl⟩ rfl
  · exact hp9 toString toString wInfoMissingOps
      ⟨InfoVal.str "fake_manila", rfl⟩ ⟨InfoVal.sdk 1, rfl⟩ ⟨InfoVal.sdk 2, rfl⟩
      ⟨InfoVal.sdk 5, rfl⟩ ⟨InfoVal.nat 2, rfl⟩ ⟨InfoVal.sdk 3, rfl⟩
      ⟨InfoVal.sdk 4, rfl⟩ ⟨InfoVal.sdk 6, rfl, rfl⟩ rfl

/-- Claim C8 counterexample: the repository's script does not consist of
exactly four helper functions: it defines five. -/
theorem helper_defs_count_not_four : helper_function_defs.length ≠ 4 := by
  decide

/-- Claim C8 amended: the script defines exactly five helper functions;
exactly four of them are invoked by the linear `__main__` script, while
`get_gate_errors` is defined but never invoked. -/
theorem script_helper_inventory :
    helper_function_defs.length = 5 ∧
    helpers_invoked_in_main.length = 4 ∧
    "search_backend" ∈ helper_function_defs ∧
    "get_backend_info" ∈ helper_function_defs ∧
    "print_backend_info" ∈ helper_function_defs ∧
    "get_gate_errors" ∈ helper_function_defs ∧
    "create_options" ∈ helper_function_defs ∧
    "search_backend" ∈ helpers_invoked_in_main ∧
    "get_backend_info" ∈ helpers_invoked_in_main ∧
    "print_backend_info" ∈ helpers_invoked_in_main ∧
    "create_options" ∈ helpers_invoked_in_main ∧
    "get_gate_errors" ∉ helpers_invoked_in_main := by
  decide

end ProvidersScript
